import Mathlib

/-
Verification of the rapid-rusty lap-timing engine against its specification.

The Rust sources are shallowly embedded:
  * pure functions become Lean functions over executable data,
  * f64 coordinate/distance values become rationals; the line-crossing
    predicate is additionally parametrised over the distance function,
    since the claims about it quantify over the computed distances,
  * Rust panics (out-of-bounds indexing, unwrap) are modelled by Option:
    a `none` result marks a panic of the embedded code path,
  * durations are modelled as integral nanosecond counts,
  * the asynchronous run loops are modelled per-event: each bus-event
    handler becomes a function from the module state (plus the inputs the
    runtime would supply, such as the current elapsed-time reading or the
    outcome of a file-system call) to the successor state and the list of
    events the handler publishes.
-/

namespace Rapid

/-- Planar WGS-84 point, `src/common/src/position.rs` (`Position`).
The f64 coordinates are modelled as rationals. -/
structure Position where
  latitude : ℚ
  longitude : ℚ
deriving DecidableEq, Repr

/-- Race track, `src/common/src/track.rs` (`Track`). -/
structure Track where
  name : String
  startline : Position
  finishline : Option Position
  sectors : List Position
deriving DecidableEq, Repr

/-- Detection range of the crossing test, `is_point_passed`
(`let detection_range = 25_u8`). -/
def detection_range : ℚ := 25

/-- The distance-accumulation loop of `is_point_passed`
(`self.last_positions.iter().all(|pos1| { distances.push(..); distance < range })`):
walks the window front (newest) to back (oldest), records each computed
distance, and stops at the first distance that is not strictly below 25 m.
Returns the recorded distances and whether all visited fixes were in range.
The distance function is a parameter standing for `calculate_distance`. -/
def scan_range (dist : Position → Position → ℚ) (marker : Position) :
    List Position → List ℚ × Bool
  | [] => ([], true)
  | p :: ps =>
    let d := dist p marker
    if d < detection_range then
      let r := scan_range dist marker ps
      (d :: r.1, r.2)
    else
      ([d], false)

/-- `SimpleLaptimer::is_point_passed`, `src/modules/laptimer/src/lib.rs`
lines 191-210 (identical in `src/algorithm/src/lib.rs`).  `none` models the
panic of the Rust code when `distances[0]`..`distances[3]` indexes out of
bounds, which happens exactly when every recorded distance was in range but
fewer than four fixes are in the window. -/
def is_point_passed (dist : Position → Position → ℚ)
    (last_positions : List Position) (pos : Position) : Option Bool :=
  let r := scan_range dist pos last_positions
  let distances := r.1
  if r.2 = false then
    some false
  else do
    let d0 ← distances.get? 0
    let d1 ← distances.get? 1
    let d2 ← distances.get? 2
    let d3 ← distances.get? 3
    some (decide (d0 > d1) && decide (d2 < d3) && decide (d1 ≠ d2))

/-- FSM state of the lap timer (`LaptimerState`). -/
inductive LaptimerState where
  | waitingForFirstStart
  | iteratingTrackPoints
  | waitingForFinish
deriving DecidableEq, Repr

/-- Events published by the lap timer (the `EventKind` variants it emits);
durations are nanosecond counts. -/
inductive LapEvent where
  | lapStarted
  | sectorFinshed (d : ℤ)
  | lapFinished (d : ℤ)
deriving DecidableEq, Repr

/-- The mutable state of `SimpleLaptimer` (modules variant):
`track`, the sliding window `last_positions` (front = newest), the FSM
state, the running sector index and sector start offset.  The monotonic
time source is modelled by `start_instant`: the absolute clock value at the
most recent `elapsed_time_source.start()`; `elapsed_time()` at absolute
time `now` reads `now - start_instant`. -/
structure LaptimerModel where
  track : Option Track
  last_positions : List Position
  state : LaptimerState
  start_instant : ℤ
  sector : Nat
  sector_start : ℤ
deriving DecidableEq, Repr

/-- Fresh lap timer, `SimpleLaptimer::new_with_source`. -/
def laptimerInit : LaptimerModel :=
  { track := none
    last_positions := []
    state := .waitingForFirstStart
    start_instant := 0
    sector := 0
    sector_start := 0 }

/-- `SimpleLaptimer::handle_sector_finsihed`: emits the sector duration
relative to `sector_start` and rebases `sector_start`. -/
def handle_sector_finsihed (st : LaptimerModel) (now : ℤ) :
    LaptimerModel × List LapEvent :=
  let elapsed := now - st.start_instant
  let duration := elapsed - st.sector_start
  ({ st with sector_start := elapsed }, [.sectorFinshed duration])

/-- `SimpleLaptimer::calculate_laptimer_state`, one FSM evaluation
(`src/modules/laptimer/src/lib.rs` lines 121-170).  `now` is the absolute
clock reading backing the elapsed-time source.  `none` models a panic:
either inside `is_point_passed`, or at `track.sectors[self.sector]` when
the sector index is out of bounds. -/
def calculate_laptimer_state (dist : Position → Position → ℚ)
    (st : LaptimerModel) (now : ℤ) : Option (LaptimerModel × List LapEvent) :=
  match st.track with
  | none => some (st, [])
  | some track =>
    match st.state with
    | .waitingForFirstStart => do
      let b ← is_point_passed dist st.last_positions track.startline
      if b then
        some ({ st with start_instant := now
                        state := .iteratingTrackPoints
                        sector_start := 0 }, [.lapStarted])
      else
        some (st, [])
    | .iteratingTrackPoints => do
      let sectorPos ← track.sectors.get? st.sector
      let b ← is_point_passed dist st.last_positions sectorPos
      if b then
        let sector1 := st.sector + 1
        let newState :=
          if sector1 ≥ track.sectors.length then
            LaptimerState.waitingForFinish
          else
            st.state
        let st1 := { st with sector := sector1, state := newState }
        some (handle_sector_finsihed st1 now)
      else
        some (st, [])
    | .waitingForFinish => do
      let finishPoint := track.finishline.getD track.startline
      let b ← is_point_passed dist st.last_positions finishPoint
      if b then
        let r := handle_sector_finsihed st now
        let st1 := r.1
        let evs := r.2 ++ [LapEvent.lapFinished (now - st1.start_instant)]
        if track.sectors.isEmpty then
          some (st1, evs)
        else
          some ({ st1 with sector := 0
                           sector_start := 0
                           start_instant := now
                           state := .iteratingTrackPoints },
                evs ++ [LapEvent.lapStarted])
      else
        some (st, [])

/-- `SimpleLaptimer::update_position` (lines 104-115): evict the oldest fix
when the window is at capacity 4, push the new fix at the front, return
without evaluation when fewer than four fixes are buffered or no track is
set, otherwise evaluate the FSM once. -/
def update_position (dist : Position → Position → ℚ) (st : LaptimerModel)
    (pos : Position) (now : ℤ) : Option (LaptimerModel × List LapEvent) :=
  let lp0 := st.last_positions
  let lp1 := if lp0.length = 4 then lp0.dropLast else lp0
  let lp := pos :: lp1
  let st1 := { st with last_positions := lp }
  if lp.length < 4 then
    some (st1, [])
  else
    match st1.track with
    | some _ => calculate_laptimer_state dist st1 now
    | none => some (st1, [])

/-- Correlation envelope `Request<T>`, `src/module_core/src/lib.rs`. -/
structure Request (α : Type) where
  id : Nat
  sender_addr : Nat
  data : α
deriving DecidableEq, Repr

/-- Correlation envelope `Response<T>`, `src/module_core/src/lib.rs`. -/
structure Response (α : Type) where
  id : Nat
  receiver_addr : Nat
  data : α
deriving DecidableEq, Repr

/-- The `DetectTrackResponseEvent` branch of `SimpleLaptimer::run`
(lines 245-251): when the payload is non-empty and matches correlation
id 10 / address 22, install the first track and immediately re-evaluate the
state machine. -/
def handle_detect_track_response (dist : Position → Position → ℚ)
    (st : LaptimerModel) (resp : Response (List Track)) (now : ℤ) :
    Option (LaptimerModel × List LapEvent) :=
  match resp.data with
  | [] => some (st, [])
  | t :: _ =>
    if resp.id = 10 ∧ resp.receiver_addr = 22 then
      calculate_laptimer_state dist { st with track := some t } now
    else
      some (st, [])

end Rapid

namespace Rapid


/-- Distance function used for concrete counterexample runs: ignores the
marker and reads the distance off the fix latitude. -/
def dist_lat : Position → Position → ℚ := fun p _ => p.latitude

/-- A position encoding the distance value d for dist_lat. -/
def pos_at (d : ℚ) : Position := { latitude := d, longitude := 0 }

/-- A track whose sector list is empty (finish line = start line). -/
def track_probe : Track :=
  { name := "Track", startline := pos_at 0, finishline := none, sectors := [] }


/-- State of C3's run: track with empty sector list resolved, window full
with four out-of-range fixes, waiting for the first start crossing. -/
def c3_s0 : LaptimerModel :=
  { track := some track_probe
    last_positions := [pos_at 30, pos_at 30, pos_at 30, pos_at 30]
    state := .waitingForFirstStart
    start_instant := 0
    sector := 0
    sector_start := 0 }

/-- C3 run after one more fix (distance 4). -/
def c3_s1 : LaptimerModel :=
  { c3_s0 with last_positions := [pos_at 4, pos_at 30, pos_at 30, pos_at 30] }

/-- C3 run after a second fix (distance 2). -/
def c3_s2 : LaptimerModel :=
  { c3_s0 with last_positions := [pos_at 2, pos_at 4, pos_at 30, pos_at 30] }

/-- C3 run after a third fix (distance 1). -/
def c3_s3 : LaptimerModel :=
  { c3_s0 with last_positions := [pos_at 1, pos_at 2, pos_at 4, pos_at 30] }

/-- C3 run after the start line is crossed: the lap timer entered
iteratingTrackPoints although the track has no sectors. -/
def c3_s4 : LaptimerModel :=
  { track := some track_probe
    last_positions := [pos_at 3, pos_at 1, pos_at 2, pos_at 4]
    state := .iteratingTrackPoints
    start_instant := 0
    sector := 0
    sector_start := 0 }



/-- Calendar date (chrono NaiveDate restricted to the common-era years the
formats of this program can represent). -/
structure Date where
  year : Nat
  month : Nat
  day : Nat
deriving DecidableEq, Repr

/-- Gregorian leap-year rule (as validated by chrono when parsing dates). -/
def isLeapYear (y : Nat) : Bool :=
  y % 4 = 0 && (y % 100 ≠ 0 || y % 400 = 0)

/-- Days of a month, used by the date validity check. -/
def daysInMonth (y m : Nat) : Nat :=
  if m = 2 then
    if isLeapYear y then 29 else 28
  else if m = 4 ∨ m = 6 ∨ m = 9 ∨ m = 11 then 30
  else 31

/-- A date that chrono accepts when parsing the format "%d.%m.%Y"
(years restricted to at most four digits, the width the format writes). -/
def validDate (d : Date) : Bool :=
  1 ≤ d.month && d.month ≤ 12 && 1 ≤ d.day && d.day ≤ daysInMonth d.year d.month &&
  1 ≤ d.year && d.year ≤ 9999

/-- Time of day (chrono NaiveTime: hours/minutes/seconds plus nanoseconds
within the second). -/
structure TimeOfDay where
  hour : Nat
  minute : Nat
  second : Nat
  nano : Nat
deriving DecidableEq, Repr

/-- A time of day chrono can represent (leap seconds are not produced by
any serializer of this program and are left out). -/
def validTimeOfDay (t : TimeOfDay) : Bool :=
  t.hour < 24 && t.minute < 60 && t.second < 60 && t.nano < 1000000000

/-- The information content of a string in the format "%H:%M:%S%.3f":
hours, minutes, seconds and exactly three fractional digits.  The format
is bijective between such field tuples and the strings it accepts, so
formatted time strings are embedded at field granularity. -/
structure TimeText where
  hour : Nat
  minute : Nat
  second : Nat
  millisecond : Nat
deriving DecidableEq, Repr

/-- Field tuples that "%H:%M:%S%.3f" parsing (chrono NaiveTime) accepts. -/
def validTimeText (t : TimeText) : Bool :=
  t.hour < 24 && t.minute < 60 && t.second < 60 && t.millisecond < 1000

/-- Formatting a NaiveTime with "%H:%M:%S%.3f": the %.3f directive keeps
the first three fractional digits, truncating the nanosecond field. -/
def timeOfDayToText (t : TimeOfDay) : TimeText :=
  { hour := t.hour, minute := t.minute, second := t.second
    millisecond := t.nano / 1000000 }

/-- Parsing "%H:%M:%S%.3f" into a NaiveTime: the three fractional digits
become milliseconds. -/
def timeTextToTimeOfDay (t : TimeText) : TimeOfDay :=
  { hour := t.hour, minute := t.minute, second := t.second
    nano := t.millisecond * 1000000 }

/-- GNSS fix, `src/common/src/position.rs` (`GnssPosition`): position,
velocity, time of day and date. -/
structure GnssPosition where
  latitude : ℚ
  longitude : ℚ
  velocity : ℚ
  time : TimeOfDay
  date : Date
deriving DecidableEq, Repr

/-- `duration_to_string`, `src/common/src/serde/duration.rs`: splits the
duration (modelled as a nanosecond count, non-negative because it comes
from a std Duration) into whole seconds and sub-second nanoseconds, builds
a NaiveTime from seconds-from-midnight (failing for 24 h or more) and
formats it with "%H:%M:%S%.3f". -/
def duration_to_text (d : ℤ) : Option TimeText :=
  if d < 0 then none
  else
    let n := d.toNat
    let total_seconds := n / 1000000000
    let nanos := n % 1000000000
    if total_seconds < 86400 then
      some { hour := total_seconds / 3600
             minute := total_seconds / 60 % 60
             second := total_seconds % 60
             millisecond := nanos / 1000000 }
    else
      none

/-- `Lap::extrac_sectors` per-entry conversion, `src/common/src/lap.rs`
lines 96-101: parse the string with "%H:%M:%S%.3f" and rebuild the
duration from `num_seconds_from_midnight` with zero nanoseconds, dropping
the fractional part. -/
def time_text_to_duration (t : TimeText) : ℤ :=
  ((t.hour * 3600 + t.minute * 60 + t.second : Nat) : ℤ) * 1000000000

/-- JSON values as used by the session files.  Strings that carry a
formatted date or time are embedded at field granularity (dateStr /
timeStr) because those formats are bijective on the values the program
accepts; str covers the remaining (non-date, non-time shaped) text. -/
inductive Json where
  | null
  | num (value : ℚ)
  | str (value : String)
  | dateStr (value : Date)
  | timeStr (value : TimeText)
  | arr (elems : List Json)
  | obj (fields : List (String × Json))

/-- serde_json Value::get on an object (None on other value kinds). -/
def Json.get (j : Json) (key : String) : Option Json :=
  match j with
  | .obj fields => fields.lookup key
  | _ => none

/-- Effectful map over a list in the Option monad (the all-or-nothing
collection of serde sequence deserializers): fails as soon as one element
fails. -/
def optionMapM {α β : Type} (f : α → Option β) : List α → Option (List β)
  | [] => some []
  | x :: xs => do
    let y ← f x
    let ys ← optionMapM f xs
    some (y :: ys)

/-- Position deserialization (serde derive on `Position`). -/
def posFromJson (j : Json) : Option Position :=
  match j.get "latitude", j.get "longitude" with
  | some (.num lat), some (.num lon) =>
    some { latitude := lat, longitude := lon }
  | _, _ => none

/-- Position serialization (serde derive on `Position`). -/
def posToJson (p : Position) : Json :=
  .obj [("latitude", .num p.latitude), ("longitude", .num p.longitude)]

/-- Track serialization (serde derive on `Track`,
`src/common/src/track.rs`). -/
def trackToJson (t : Track) : Json :=
  .obj [("name", .str t.name),
        ("startline", posToJson t.startline),
        ("finishline", match t.finishline with
          | some p => posToJson p
          | none => Json.null),
        ("sectors", .arr (t.sectors.map posToJson))]

/-- `Track::from_json` (serde derive): all fields required, an absent or
null finishline maps to none. -/
def trackFromJson (j : Json) : Option Track := do
  let name ← match j.get "name" with
    | some (.str s) => some s
    | _ => none
  let startline ← (j.get "startline").bind posFromJson
  let finishline ← match j.get "finishline" with
    | none => some none
    | some .null => some none
    | some v => (posFromJson v).map some
  let sectors ← match j.get "sectors" with
    | some (.arr elems) => optionMapM posFromJson elems
    | _ => none
  some { name := name, startline := startline, finishline := finishline
         sectors := sectors }

/-- GnssPosition serialization (serde derive with the date/time helpers of
`src/common/src/serde/`): times are written with "%H:%M:%S%.3f"
(truncating to milliseconds), dates with "%d.%m.%Y". -/
def gnssToJson (p : GnssPosition) : Json :=
  .obj [("latitude", .num p.latitude),
        ("longitude", .num p.longitude),
        ("velocity", .num p.velocity),
        ("time", .timeStr (timeOfDayToText p.time)),
        ("date", .dateStr p.date)]

/-- `GnssPosition::from_json` (serde derive with the date/time helpers). -/
def gnssFromJson (j : Json) : Option GnssPosition := do
  let lat ← match j.get "latitude" with
    | some (.num q) => some q
    | _ => none
  let lon ← match j.get "longitude" with
    | some (.num q) => some q
    | _ => none
  let vel ← match j.get "velocity" with
    | some (.num q) => some q
    | _ => none
  let time ← match j.get "time" with
    | some (.timeStr t) => if validTimeText t then some (timeTextToTimeOfDay t) else none
    | _ => none
  let date ← match j.get "date" with
    | some (.dateStr d) => if validDate d then some d else none
    | _ => none
  some { latitude := lat, longitude := lon, velocity := vel, time := time
         date := date }

/-- Lap, `src/common/src/lap.rs`: sector durations (nanosecond counts) and
logged fixes. -/
structure Lap where
  sectors : List ℤ
  log_points : List GnssPosition
deriving DecidableEq, Repr

/-- One entry of the sectors array as read by `Lap::extrac_sectors`:
only a string parsing under "%H:%M:%S%.3f" yields a duration, every other
entry is skipped. -/
def sector_entry (e : Json) : Option ℤ :=
  match e with
  | .timeStr t => if validTimeText t then some (time_text_to_duration t) else none
  | _ => none

/-- `Lap::extrac_sectors` (`src/common/src/lap.rs` lines 87-111): requires
the sectors field to be an array, converts each parsable entry and skips
the rest. -/
def extrac_sectors (j : Json) : Option (List ℤ) :=
  match j.get "sectors" with
  | some (.arr elems) => some (elems.filterMap sector_entry)
  | _ => none

/-- `Lap::extrac_log_points`: requires an array and deserializes every
entry, failing when one entry fails. -/
def extrac_log_points (j : Json) : Option (List GnssPosition) :=
  match j.get "log_points" with
  | some (.arr elems) => optionMapM gnssFromJson elems
  | _ => none

/-- `Lap::from_json`. -/
def lapFromJson (j : Json) : Option Lap := do
  let sectors ← extrac_sectors j
  let log_points ← extrac_log_points j
  some { sectors := sectors, log_points := log_points }

/-- Modelled from the spec: Lap serialization.  `Lap` in
`src/common/src/lap.rs` has no Serialize implementation under src/; §6
fixes the JSON shape, with sector durations written as "HH:MM:SS.mmm"
(the `duration_to_string` helper of `src/common/src/serde/duration.rs`). -/
def lapToJson (lap : Lap) : Option Json := do
  let sectorTexts ← optionMapM duration_to_text lap.sectors
  some (Json.obj
    [("sectors", .arr (sectorTexts.map Json.timeStr)),
     ("log_points", .arr (lap.log_points.map gnssToJson))])

/-- Session, `src/common/src/session.rs`. -/
structure Session where
  id : Nat
  date : Date
  time : TimeOfDay
  track : Track
  laps : List Lap
deriving DecidableEq, Repr

/-- `Session::extrac_track`: reads the track object and runs
`Track::from_json` on it. -/
def extrac_track (j : Json) : Option Track :=
  (j.get "track").bind trackFromJson

/-- Modelled from the spec: `extrac_date` (imported by
`src/common/src/session.rs` but not under src/) parses the date field with
"%d.%m.%Y". -/
def extrac_date (j : Json) : Option Date :=
  match j.get "date" with
  | some (.dateStr d) => if validDate d then some d else none
  | _ => none

/-- Modelled from the spec: `extrac_time` (imported by
`src/common/src/session.rs` but not under src/) parses the time field with
"%H:%M:%S%.3f". -/
def extrac_time (j : Json) : Option TimeOfDay :=
  match j.get "time" with
  | some (.timeStr t) => if validTimeText t then some (timeTextToTimeOfDay t) else none
  | _ => none

/-- `Session::extrac_laps`: requires an array and deserializes every lap,
failing when one fails. -/
def extrac_laps (j : Json) : Option (List Lap) :=
  match j.get "laps" with
  | some (.arr elems) => optionMapM lapFromJson elems
  | _ => none

/-- `Session::from_json` (`src/common/src/session.rs` lines 68-85): builds
the session from the parsed fields and hardcodes `id := 0`. -/
def sessionFromJson (j : Json) : Option Session := do
  let track ← extrac_track j
  let date ← extrac_date j
  let time ← extrac_time j
  let laps ← extrac_laps j
  some { id := 0, date := date, time := time, track := track, laps := laps }

/-- Modelled from the spec: Session serialization (`Session::to_json`,
called by the storage module but not under src/).  §6 fixes the envelope:
id as a JSON number, date as "DD.MM.YYYY", time as "HH:MM:SS.mmm", the
track object and the laps array. -/
def sessionToJson (s : Session) : Option Json := do
  let lapJsons ← optionMapM lapToJson s.laps
  some (Json.obj
    [("id", .num (s.id : ℚ)),
     ("date", .dateStr s.date),
     ("time", .timeStr (timeOfDayToText s.time)),
     ("track", trackToJson s.track),
     ("laps", .arr lapJsons)])

/-- The round trip of claim C8. -/
def session_round_trip (s : Session) : Option Session :=
  (sessionToJson s).bind sessionFromJson

/-- Truncation of a duration to whole seconds (what the deserializer
effectively applies to each sector duration). -/
def truncate_to_seconds (d : ℤ) : ℤ :=
  d / 1000000000 * 1000000000

/-- What the round trip actually returns: the session with its id zeroed
and every sector duration truncated to whole seconds. -/
def session_normalize (s : Session) : Session :=
  { s with
    id := 0
    laps := s.laps.map (fun lap =>
      { lap with sectors := lap.sectors.map truncate_to_seconds }) }

/-- Sector durations the serializer can represent: non-negative and below
24 hours. -/
def validSectorDuration (d : ℤ) : Bool :=
  decide (0 ≤ d) && decide (d < 86400 * 1000000000)

/-- A GNSS fix whose date is valid and whose time is valid with whole
milliseconds (the precision the JSON format carries). -/
def validGnss (p : GnssPosition) : Bool :=
  validTimeOfDay p.time && p.time.nano % 1000000 = 0 && validDate p.date

/-- Sessions representable by the JSON format: valid date, valid
millisecond-precision time, in-range sector durations, valid log points. -/
def validSession (s : Session) : Bool :=
  validDate s.date && validTimeOfDay s.time && s.time.nano % 1000000 = 0 &&
  s.laps.all (fun lap =>
    lap.sectors.all validSectorDuration && lap.log_points.all validGnss)

/-- Modelled from the spec: `SessionInfo` (imported by the storage module
from `common::session` but not under src/): sidecar metadata with id,
datetime, track name and lap count. -/
structure SessionInfo where
  id : String
  date : Date
  time : TimeOfDay
  track_name : String
  laps : Nat
deriving DecidableEq, Repr

/-- I/O error kinds surfaced in responses (std io::ErrorKind, reduced to
the kinds this program distinguishes). -/
inductive ErrKind where
  | notFound
  | permissionDenied
  | other
deriving DecidableEq, Repr

/-- `is_on_track`, `src/algorithm/src/lib.rs` lines 21-34: the tracks
whose start line is within the detection radius of the position
(non-strict comparison), in catalog order. -/
def is_on_track (dist : Position → Position → ℚ) (tracks : List Track)
    (pos : Position) (detection_radius : ℚ) : List Track :=
  tracks.filter (fun t => dist t.startline pos ≤ detection_radius)

/-- State of the `TrackDetection` module,
`src/modules/track_detection/src/lib.rs`. -/
structure TrackDetectionModel where
  position : Option Position
  pending_requests : List (Request Unit)
  tracks : List Track
deriving DecidableEq, Repr

/-- `TrackDetection::handle_pending_requests` (lines 46-72): without a
position, or with no pending requests, or with an empty track catalog it
returns without emitting anything; otherwise it answers every pending
request in FIFO order with the tracks within 500 m, echoing id and
sender address of each request. -/
def handle_pending_requests (dist : Position → Position → ℚ)
    (st : TrackDetectionModel) :
    TrackDetectionModel × List (Response (List Track)) :=
  match st.position with
  | none => (st, [])
  | some pos =>
    if st.pending_requests.isEmpty || st.tracks.isEmpty then
      (st, [])
    else
      let detected := is_on_track dist st.tracks pos 500
      ({ st with pending_requests := [] },
       st.pending_requests.map (fun r =>
         { id := r.id, receiver_addr := r.sender_addr, data := detected }))

/-- `FilesSystemStorage::handle_load_stored_ids_request`
(`src/modules/storage/src/lib.rs` lines 295-314): the outcome of
`load_session_infos` is an input; an error becomes the empty list, the
response echoes id and sender address. -/
def handle_load_stored_ids_request (req : Request Unit)
    (io_res : Except ErrKind (List SessionInfo)) : Response (List SessionInfo) :=
  let infos := match io_res with
    | .ok infos => infos
    | .error _ => []
  { id := req.id, receiver_addr := req.sender_addr, data := infos }

/-- `FilesSystemStorage::handle_save_request` (lines 316-342): the outcome
of `save` (already reduced to its error kind) is an input; the response
echoes id and sender address and carries the outcome. -/
def handle_save_request (req : Request Session)
    (io_res : Except ErrKind String) : Response (Except ErrKind String) :=
  { id := req.id, receiver_addr := req.sender_addr, data := io_res }

/-- `FilesSystemStorage::handle_load_request` (lines 344-372). -/
def handle_load_request (req : Request String)
    (io_res : Except ErrKind Session) : Response (Except ErrKind Session) :=
  { id := req.id, receiver_addr := req.sender_addr, data := io_res }

/-- Rust `Result::or`: keeps the first result when it is Ok, otherwise
returns the second. -/
def rust_result_or (a : Except ErrKind Unit) (b : Except ErrKind Unit) :
    Except ErrKind Unit :=
  match a with
  | .ok v => .ok v
  | .error _ => b

/-- `FilesSystemStorage::handle_delete_request` (lines 384-398): the
outcomes of `delete_info` and `delete` are inputs; `delete` runs only when
`delete_info` succeeded (the boolean reports whether it ran), and its
result is combined with `self.delete(id).await.or(result)`.  The response
echoes id and sender address. -/
def handle_delete_request (req : Request String)
    (info_res : Except ErrKind Unit) (session_res : Except ErrKind Unit) :
    Response (Except ErrKind Unit) × Bool :=
  let result := info_res
  if result.isOk then
    ({ id := req.id, receiver_addr := req.sender_addr
       data := rust_result_or session_res result }, true)
  else
    ({ id := req.id, receiver_addr := req.sender_addr, data := result }, false)

/-- `FilesSystemStorage::handle_load_stored_track_ids_request`
(lines 400-418): an error becomes the empty list. -/
def handle_load_stored_track_ids_request (req : Request Unit)
    (io_res : Except ErrKind (List String)) : Response (List String) :=
  let ids := match io_res with
    | .ok ids => ids
    | .error _ => []
  { id := req.id, receiver_addr := req.sender_addr, data := ids }

/-- `FilesSystemStorage::handle_all_load_stored_track_request`
(lines 420-451): the successfully parsed tracks are an input. -/
def handle_all_load_stored_track_request (req : Request Unit)
    (tracks : List Track) : Response (List Track) :=
  { id := req.id, receiver_addr := req.sender_addr, data := tracks }

/-- State of the `ActiveSession` module,
`src/modules/active_session/src/lib.rs`. -/
structure ActiveSessionModel where
  session : Option Session
  active_lap : Option Lap
deriving DecidableEq, Repr

/-- `ActiveSession::on_lap_finished` (lines 63-85): with no session the
event is ignored; with a session, `active_lap.take()` clears the active
lap and a taken lap is pushed onto the session, then a SaveSessionRequest
with id 30 and sender address 40 is published carrying the (shared, hence
updated) session. -/
def on_lap_finished (st : ActiveSessionModel) :
    ActiveSessionModel × List (Request Session) :=
  match st.session with
  | none => (st, [])
  | some sess =>
    let taken := st.active_lap
    let sess1 := match taken with
      | some lap => { sess with laps := sess.laps ++ [lap] }
      | none => sess
    ({ session := some sess1, active_lap := none },
     [{ id := 30, sender_addr := 40, data := sess1 }])

/-- The process-wide `BUS_ID` atomic counter,
`src/module_core/src/lib.rs` line 357. -/
structure BusCounter where
  value : Nat
deriving DecidableEq, Repr

/-- `AtomicUsize::fetch_add`: returns the previous value and adds. -/
def counter_fetch_add (c : BusCounter) (n : Nat) : Nat × BusCounter :=
  (c.value, { value := c.value + n })

/-- `AtomicUsize::store`: overwrites the value. -/
def counter_store_value (_c : BusCounter) (v : Nat) : BusCounter :=
  { value := v }

/-- `EventBus::new` (lines 364-370) as it acts on the id counter:
`let id = BUS_ID.fetch_add(1, Relaxed); ...; BUS_ID.store(id, SeqCst)`.
Returns the allocated bus id and the counter left behind. -/
def event_bus_new (c : BusCounter) : Nat × BusCounter :=
  let r := counter_fetch_add c 1
  let id := r.1
  let c1 := counter_store_value r.2 id
  (id, c1)

/-- Discriminants of `EventKind` (the strum-derived `EventKindType`). -/
inductive EventKindType where
  | quitEvent
  | gnssPositionEvent
  | gnssInformationEvent
  | lapStartedEvent
  | lapFinishedEvent
  | sectorFinshedEvent
  | currentLaptimeEvent
  | loadStoredSessionIdsRequestEvent
  | loadStoredSessionIdsResponseEvent
  | saveSessionRequestEvent
  | saveSessionResponseEvent
  | loadSessionRequestEvent
  | loadSessionResponseEvent
  | deleteSessionRequestEvent
  | deleteSessionResponseEvent
  | loadStoredTrackIdsRequest
  | loadStoredTrackIdsResponseEvent
  | loadAllStoredTracksRequestEvent
  | loadAllStoredTracksResponseEvent
  | detectTrackRequestEvent
  | detectTrackResponseEvent
deriving DecidableEq, Repr

instance {ε α : Type} [DecidableEq ε] [DecidableEq α] :
    DecidableEq (Except ε α) := fun x y =>
  match x, y with
  | .ok a, .ok b =>
    if h : a = b then .isTrue (by rw [h])
    else .isFalse (by intro hc; cases hc; exact h rfl)
  | .error a, .error b =>
    if h : a = b then .isTrue (by rw [h])
    else .isFalse (by intro hc; cases hc; exact h rfl)
  | .ok _, .error _ => .isFalse (by intro hc; cases hc)
  | .error _, .ok _ => .isFalse (by intro hc; cases hc)

/-- `EventKind`, `src/module_core/src/lib.rs` lines 249-340, with the
payloads of the type aliases of that file (durations as nanosecond
counts; the GnssInformation payload, unused by every claim, is dropped). -/
inductive EventKind where
  | quitEvent
  | gnssPositionEvent (p : GnssPosition)
  | gnssInformationEvent
  | lapStartedEvent
  | lapFinishedEvent (d : ℤ)
  | sectorFinshedEvent (d : ℤ)
  | currentLaptimeEvent (d : ℤ)
  | loadStoredSessionIdsRequestEvent (r : Request Unit)
  | loadStoredSessionIdsResponseEvent (r : Response (List SessionInfo))
  | saveSessionRequestEvent (r : Request Session)
  | saveSessionResponseEvent (r : Response (Except ErrKind String))
  | loadSessionRequestEvent (r : Request String)
  | loadSessionResponseEvent (r : Response (Except ErrKind Session))
  | deleteSessionRequestEvent (r : Request String)
  | deleteSessionResponseEvent (r : Response (Except ErrKind Unit))
  | loadStoredTrackIdsRequest (r : Request Unit)
  | loadStoredTrackIdsResponseEvent (r : Response (List String))
  | loadAllStoredTracksRequestEvent (r : Request Unit)
  | loadAllStoredTracksResponseEvent (r : Response (List Track))
  | detectTrackRequestEvent (r : Request Unit)
  | detectTrackResponseEvent (r : Response (List Track))
deriving DecidableEq

/-- Discriminant of an event kind (`EventKindType::from`). -/
def eventKindType : EventKind → EventKindType
  | .quitEvent => .quitEvent
  | .gnssPositionEvent _ => .gnssPositionEvent
  | .gnssInformationEvent => .gnssInformationEvent
  | .lapStartedEvent => .lapStartedEvent
  | .lapFinishedEvent _ => .lapFinishedEvent
  | .sectorFinshedEvent _ => .sectorFinshedEvent
  | .currentLaptimeEvent _ => .currentLaptimeEvent
  | .loadStoredSessionIdsRequestEvent _ => .loadStoredSessionIdsRequestEvent
  | .loadStoredSessionIdsResponseEvent _ => .loadStoredSessionIdsResponseEvent
  | .saveSessionRequestEvent _ => .saveSessionRequestEvent
  | .saveSessionResponseEvent _ => .saveSessionResponseEvent
  | .loadSessionRequestEvent _ => .loadSessionRequestEvent
  | .loadSessionResponseEvent _ => .loadSessionResponseEvent
  | .deleteSessionRequestEvent _ => .deleteSessionRequestEvent
  | .deleteSessionResponseEvent _ => .deleteSessionResponseEvent
  | .loadStoredTrackIdsRequest _ => .loadStoredTrackIdsRequest
  | .loadStoredTrackIdsResponseEvent _ => .loadStoredTrackIdsResponseEvent
  | .loadAllStoredTracksRequestEvent _ => .loadAllStoredTracksRequestEvent
  | .loadAllStoredTracksResponseEvent _ => .loadAllStoredTracksResponseEvent
  | .detectTrackRequestEvent _ => .detectTrackRequestEvent
  | .detectTrackResponseEvent _ => .detectTrackResponseEvent

/-- `Event`, `src/module_core/src/lib.rs`. -/
structure Event where
  kind : EventKind
deriving DecidableEq

/-- `Event::id` (lines 47-65): the correlation id of request and response
events, none for the others. -/
def Event.id (e : Event) : Option Nat :=
  match e.kind with
  | .loadStoredSessionIdsRequestEvent r => some r.id
  | .loadStoredTrackIdsRequest r => some r.id
  | .loadAllStoredTracksRequestEvent r => some r.id
  | .detectTrackRequestEvent r => some r.id
  | .saveSessionRequestEvent r => some r.id
  | .loadSessionRequestEvent r => some r.id
  | .deleteSessionRequestEvent r => some r.id
  | .loadStoredSessionIdsResponseEvent r => some r.id
  | .saveSessionResponseEvent r => some r.id
  | .loadSessionResponseEvent r => some r.id
  | .deleteSessionResponseEvent r => some r.id
  | .loadStoredTrackIdsResponseEvent r => some r.id
  | .loadAllStoredTracksResponseEvent r => some r.id
  | .detectTrackResponseEvent r => some r.id
  | _ => none

/-- `Event::addr` (lines 72-90): sender address of requests, receiver
address of responses, none for the others. -/
def Event.addr (e : Event) : Option Nat :=
  match e.kind with
  | .loadStoredSessionIdsRequestEvent r => some r.sender_addr
  | .saveSessionRequestEvent r => some r.sender_addr
  | .loadSessionRequestEvent r => some r.sender_addr
  | .deleteSessionRequestEvent r => some r.sender_addr
  | .loadStoredTrackIdsRequest r => some r.sender_addr
  | .loadAllStoredTracksRequestEvent r => some r.sender_addr
  | .detectTrackRequestEvent r => some r.sender_addr
  | .loadStoredSessionIdsResponseEvent r => some r.receiver_addr
  | .saveSessionResponseEvent r => some r.receiver_addr
  | .loadSessionResponseEvent r => some r.receiver_addr
  | .deleteSessionResponseEvent r => some r.receiver_addr
  | .loadStoredTrackIdsResponseEvent r => some r.receiver_addr
  | .loadAllStoredTracksResponseEvent r => some r.receiver_addr
  | .detectTrackResponseEvent r => some r.receiver_addr
  | _ => none

/-- `ModuleCtxError`, `src/module_core/src/lib.rs` lines 440-445. -/
inductive ModuleCtxError where
  | publishError (msg : String)
  | receiveError (msg : String)
  | receiveTimeout
deriving DecidableEq, Repr

/-- One outcome of `receiver.recv().await` inside the waiting loop:
a delivered event, a Lagged(n) signal, or the Closed error. -/
inductive RecvItem where
  | recv (e : Event)
  | lagged (n : Nat)
  | closed
deriving DecidableEq

/-- The timeout applied around the waiting loop of `wait_for_event`
(`timeout(std::time::Duration::from_secs(20), func)`), in seconds. -/
def wait_for_event_timeout_secs : Nat := 20

/-- `wait_for_event`, `src/module_core/src/lib.rs` lines 507-545, over the
sequence of receive outcomes the subscription yields within the timeout
window: returns the first event matching discriminant, correlation id and
address; skips non-matching events and lag signals; maps the Closed error
to a receive error; the end of the sequence is the 20 s timeout firing,
yielding receiveTimeout. -/
def wait_for_event (id addr : Nat) (response_type : EventKindType) :
    List RecvItem → Except ModuleCtxError Event
  | [] => .error .receiveTimeout
  | .recv e :: rest =>
    if eventKindType e.kind = response_type ∧ e.id = some id ∧
        e.addr = some addr then
      .ok e
    else
      wait_for_event id addr response_type rest
  | .lagged _ :: rest => wait_for_event id addr response_type rest
  | .closed :: _ => .error (.receiveError "Failed to receive event")

/-- A concrete session used by witnesses. -/
def session_w : Session :=
  { id := 0
    date := { year := 1970, month := 1, day := 1 }
    time := { hour := 13, minute := 0, second := 0, nano := 0 }
    track := track_probe
    laps := [] }

/-- A track whose start line is far (distance 987 under dist_lat). -/
def track_far : Track :=
  { name := "Far", startline := pos_at 987, finishline := none, sectors := [] }

/-- Witness for C10: a concrete state with a session and no active lap. -/
def active_session_w : ActiveSessionModel :=
  { session := some session_w
    active_lap := none }

/-- State refuting C6: a position is known and a detection request is
pending, but the track catalog is empty. -/
def c6_state : TrackDetectionModel :=
  { position := some (pos_at 0)
    pending_requests := [{ id := 1, sender_addr := 20, data := () }]
    tracks := [] }

/-- Witness state for the C6 amended theorem: position known, one pending
request, one catalog track far away from the position. -/
def c6_state_far : TrackDetectionModel :=
  { position := some (pos_at 0)
    pending_requests := [{ id := 1, sender_addr := 20, data := () }]
    tracks := [track_far] }

/-- The event the C5 witness waits for. -/
def c5_match_event : Event :=
  { kind := .detectTrackResponseEvent { id := 5, receiver_addr := 7, data := [] } }

/-- Receive sequence of the C5 witness: a lag signal, an event of the
wrong discriminant, a response with the wrong address, the first matching
response, then a later matching response that must be ignored. -/
def c5_items : List RecvItem :=
  [.lagged 3,
   .recv { kind := .lapStartedEvent },
   .recv { kind := .detectTrackResponseEvent
             { id := 5, receiver_addr := 8, data := [] } },
   .recv c5_match_event,
   .recv { kind := .detectTrackResponseEvent
             { id := 5, receiver_addr := 7, data := [track_probe] } }]

/-- The concrete session refuting C8: id 0, one lap with the single sector
duration 25.144 s (the value of the repository test fixture). -/
def c8_session : Session :=
  { id := 0
    date := { year := 1970, month := 1, day := 1 }
    time := { hour := 13, minute := 0, second := 0, nano := 0 }
    track := track_probe
    laps := [{ sectors := [25144000000], log_points := [] }] }

/- ------------------------- Theorems ------------------------- -/

/-- Helper: on a four-fix window the crossing test equals the boolean
conjunction of the range check and the three direction conditions. -/
theorem is_point_passed_four (dist : Position → Position → ℚ)
    (p0 p1 p2 p3 m : Position) :
    is_point_passed dist [p0, p1, p2, p3] m =
      some ((decide (dist p0 m < detection_range) &&
             decide (dist p1 m < detection_range) &&
             decide (dist p2 m < detection_range) &&
             decide (dist p3 m < detection_range)) &&
            (decide (dist p0 m > dist p1 m) &&
             decide (dist p2 m < dist p3 m) &&
             decide (dist p1 m ≠ dist p2 m))) := by
  simp only [is_point_passed, scan_range]
  split_ifs with h0 h1 h2 h3 <;> simp_all

/-- C1: on a window of exactly four fixes p0 (newest) .. p3 (oldest) and a
marker m, the crossing test reports crossed iff all four distances are
strictly below 25 m, d0 > d1, d2 < d3 and d1 ≠ d2; when any of the four
conditions fails it reports not crossed (and it never panics on a full
window). -/
theorem crossing_iff_four_conditions (dist : Position → Position → ℚ)
    (p0 p1 p2 p3 m : Position) :
    (is_point_passed dist [p0, p1, p2, p3] m = some true ↔
      (dist p0 m < 25 ∧ dist p1 m < 25 ∧ dist p2 m < 25 ∧ dist p3 m < 25 ∧
       dist p0 m > dist p1 m ∧ dist p2 m < dist p3 m ∧
       dist p1 m ≠ dist p2 m)) ∧
    (¬ (dist p0 m < 25 ∧ dist p1 m < 25 ∧ dist p2 m < 25 ∧ dist p3 m < 25 ∧
        dist p0 m > dist p1 m ∧ dist p2 m < dist p3 m ∧
        dist p1 m ≠ dist p2 m) →
      is_point_passed dist [p0, p1, p2, p3] m = some false) := by
  obtain ⟨b, hb, hiff⟩ :
      ∃ b, is_point_passed dist [p0, p1, p2, p3] m = some b ∧
        (b = true ↔
          (dist p0 m < 25 ∧ dist p1 m < 25 ∧ dist p2 m < 25 ∧
           dist p3 m < 25 ∧ dist p0 m > dist p1 m ∧ dist p2 m < dist p3 m ∧
           dist p1 m ≠ dist p2 m)) := by
    refine ⟨_, is_point_passed_four dist p0 p1 p2 p3 m, ?_⟩
    simp only [Bool.and_eq_true, decide_eq_true_eq, detection_range]
    tauto
  constructor
  · rw [hb]
    simp only [Option.some.injEq]
    exact hiff
  · intro hn
    rw [hb]
    have hfalse : b = false := by
      cases b
      · rfl
      · exact absurd (hiff.mp rfl) hn
    rw [hfalse]

/-- C1 witness: the crossing characterisation applied to a concrete
window that satisfies all four conditions and to one that is out of
range. -/
theorem crossing_iff_four_conditions_witness :
    is_point_passed dist_lat [pos_at 3, pos_at 1, pos_at 2, pos_at 4]
      (pos_at 0) = some true ∧
    is_point_passed dist_lat [pos_at 30, pos_at 1, pos_at 2, pos_at 4]
      (pos_at 0) = some false := by
  have h1 := crossing_iff_four_conditions dist_lat (pos_at 3) (pos_at 1)
    (pos_at 2) (pos_at 4) (pos_at 0)
  have h2 := crossing_iff_four_conditions dist_lat (pos_at 30) (pos_at 1)
    (pos_at 2) (pos_at 4) (pos_at 0)
  exact ⟨h1.1.mpr (by decide), h2.2 (by decide)⟩

/-- C2: handling a position with an under-filled window does nothing, but
the immediate FSM re-evaluation performed when a track is resolved with an
empty window panics: the range check passes vacuously and the code indexes
distances[0] on an empty vector (modelled by the none result). -/
theorem track_resolved_underfilled_window_panics :
    update_position dist_lat laptimerInit (pos_at 30) 0 =
      some ({ laptimerInit with last_positions := [pos_at 30] }, []) ∧
    handle_detect_track_response dist_lat laptimerInit
      { id := 10, receiver_addr := 22, data := [track_probe] } 0 = none := by
  decide

/-- C3: with an empty sector list the timer emits LapStarted on the start
crossing and moves to iteratingTrackPoints, and the very next evaluation
panics at track.sectors[0] (none result): the promised LapStarted /
LapFinished alternation is unreachable. -/
theorem empty_sector_track_panics_after_start :
    update_position dist_lat c3_s0 (pos_at 4) 0 = some (c3_s1, []) ∧
    update_position dist_lat c3_s1 (pos_at 2) 0 = some (c3_s2, []) ∧
    update_position dist_lat c3_s2 (pos_at 1) 0 = some (c3_s3, []) ∧
    update_position dist_lat c3_s3 (pos_at 3) 0 =
      some (c3_s4, [LapEvent.lapStarted]) ∧
    update_position dist_lat c3_s4 (pos_at 0) 0 = none := by
  decide


/-- C9: refuting run for the bus id allocation: `EventBus::new` stores the
just-allocated id back into the counter, so creating two buses one after
the other from the initial counter yields id 0 both times; the second id
is not strictly greater than the first. -/
theorem bus_id_not_monotonic :
    event_bus_new { value := 0 } = (0, { value := 0 }) ∧
    (event_bus_new (event_bus_new { value := 0 }).2).1 = 0 ∧
    (∀ c : BusCounter,
      (event_bus_new (event_bus_new c).2).1 = (event_bus_new c).1) :=
  ⟨rfl, rfl, fun _ => rfl⟩

/-- C7: `handle_delete_request` evaluated at both failure modes: when the
info removal succeeds and the session removal fails, the Ok info result is
kept (`.or(result)`) and the response wrongly reports Ok; when the info
removal fails the session removal is not attempted (flag false) and the
info error is reported. -/
theorem delete_session_error_swallowed :
    handle_delete_request { id := 13, sender_addr := 20, data := "s" }
      (.ok ()) (.error .notFound) =
      ({ id := 13, receiver_addr := 20, data := .ok () }, true) ∧
    handle_delete_request { id := 13, sender_addr := 20, data := "s" }
      (.error .notFound) (.ok ()) =
      ({ id := 13, receiver_addr := 20, data := .error .notFound }, false) := by
  constructor
  · rfl
  · rfl

/-- C10: handling LapFinished with no session changes nothing and
publishes nothing; with a session it publishes exactly one
SaveSessionRequest with id 30 and sender address 40, and when no lap is
active the session lap list is left unchanged. -/
theorem lap_finished_publishes_save_request (st : ActiveSessionModel) :
    (st.session = none → on_lap_finished st = (st, [])) ∧
    (∀ sess, st.session = some sess →
      (on_lap_finished st).2.map (fun r => (r.id, r.sender_addr)) =
        [(30, 40)] ∧
      (st.active_lap = none →
        on_lap_finished st =
          ({ session := some sess, active_lap := none },
           [{ id := 30, sender_addr := 40, data := sess }]))) := by
  constructor
  · intro h
    simp [on_lap_finished, h]
  · intro sess hs
    constructor
    · cases hl : st.active_lap <;> simp [on_lap_finished, hs, hl]
    · intro hl
      simp [on_lap_finished, hs, hl]

/-- C10 witness: the theorem applied to the concrete state. -/
theorem lap_finished_publishes_save_request_witness :
    (on_lap_finished active_session_w).2.map (fun r => (r.id, r.sender_addr)) =
      [(30, 40)] ∧
    on_lap_finished active_session_w =
      ({ session := active_session_w.session, active_lap := none },
       [{ id := 30, sender_addr := 40, data := session_w }]) := by
  have h := (lap_finished_publishes_save_request active_session_w).2
    session_w rfl
  exact ⟨h.1, h.2 rfl⟩

/-- C6 counterexample: with an empty catalog the handler emits no
response at all and leaves the request pending, although the claim
demands a DetectTrackResponse with an empty payload. -/
theorem empty_catalog_response_omitted :
    handle_pending_requests dist_lat c6_state = (c6_state, []) := by
  rfl

/-- C6 amended: with an empty catalog nothing is emitted and the state is
unchanged; once a position is known and the catalog is non-empty, every
pending request is answered (in FIFO order, echoing its correlation
fields) with the tracks within 500 m — the empty list when none is in
range — and the queue is drained. -/
theorem pending_requests_drain_behavior (dist : Position → Position → ℚ)
    (st : TrackDetectionModel) :
    (st.tracks = [] → handle_pending_requests dist st = (st, [])) ∧
    (∀ pos, st.position = some pos → st.tracks ≠ [] →
      (handle_pending_requests dist st).2 =
        st.pending_requests.map (fun r =>
          { id := r.id, receiver_addr := r.sender_addr
            data := is_on_track dist st.tracks pos 500 }) ∧
      (handle_pending_requests dist st).1.pending_requests = []) := by
  constructor
  · intro h
    cases hp : st.position <;>
      simp [handle_pending_requests, hp, h, List.isEmpty_nil]
  · intro pos hp hne
    cases hq : st.pending_requests with
    | nil =>
      simp [handle_pending_requests, hp, hq]
    | cons q qs =>
      have hte : st.tracks.isEmpty = false := by
        cases ht : st.tracks with
        | nil => exact absurd ht hne
        | cons t ts => rfl
      simp [handle_pending_requests, hp, hq, hte]

/-- C6 amended witness: at the concrete state the handler answers the
pending request with the empty track list and drains the queue. -/
theorem pending_requests_drain_behavior_witness :
    c6_state.tracks = [] ∧
    handle_pending_requests dist_lat c6_state = (c6_state, []) ∧
    (handle_pending_requests dist_lat c6_state_far).2 =
      [{ id := 1, receiver_addr := 20, data := [] }] ∧
    (handle_pending_requests dist_lat c6_state_far).1.pending_requests = [] := by
  have h1 := (pending_requests_drain_behavior dist_lat c6_state).1 rfl
  have h2 := (pending_requests_drain_behavior dist_lat c6_state_far).2
    (pos_at 0) rfl (by decide)
  refine ⟨rfl, h1, ?_, h2.2⟩
  rw [h2.1]
  decide

/-- C4: every response emitted by the track detector or a storage request
handler echoes the correlation id of its request as id and the sender
address of its request as receiver address, for every request kind and
also on error outcomes. -/
theorem response_echoes_request :
    (∀ (dist : Position → Position → ℚ) (st : TrackDetectionModel)
       (r : Response (List Track)),
      r ∈ (handle_pending_requests dist st).2 →
      ∃ q ∈ st.pending_requests,
        r.id = q.id ∧ r.receiver_addr = q.sender_addr) ∧
    (∀ (req : Request Unit) (io_res : Except ErrKind (List SessionInfo)),
      (handle_load_stored_ids_request req io_res).id = req.id ∧
      (handle_load_stored_ids_request req io_res).receiver_addr =
        req.sender_addr) ∧
    (∀ (req : Request Session) (io_res : Except ErrKind String),
      (handle_save_request req io_res).id = req.id ∧
      (handle_save_request req io_res).receiver_addr = req.sender_addr) ∧
    (∀ (req : Request String) (io_res : Except ErrKind Session),
      (handle_load_request req io_res).id = req.id ∧
      (handle_load_request req io_res).receiver_addr = req.sender_addr) ∧
    (∀ (req : Request String) (info_res session_res : Except ErrKind Unit),
      (handle_delete_request req info_res session_res).1.id = req.id ∧
      (handle_delete_request req info_res session_res).1.receiver_addr =
        req.sender_addr) ∧
    (∀ (req : Request Unit) (io_res : Except ErrKind (List String)),
      (handle_load_stored_track_ids_request req io_res).id = req.id ∧
      (handle_load_stored_track_ids_request req io_res).receiver_addr =
        req.sender_addr) ∧
    (∀ (req : Request Unit) (tracks : List Track),
      (handle_all_load_stored_track_request req tracks).id = req.id ∧
      (handle_all_load_stored_track_request req tracks).receiver_addr =
        req.sender_addr) := by
  refine ⟨?_, ?_, ?_, ?_, ?_, ?_, ?_⟩
  · intro dist st r hr
    unfold handle_pending_requests at hr
    cases hp : st.position with
    | none => simp [hp] at hr
    | some pos =>
      rw [hp] at hr
      by_cases hie : st.pending_requests.isEmpty || st.tracks.isEmpty
      · simp [hie] at hr
      · simp only [hie, if_false, Bool.false_eq_true] at hr
        simp only [List.mem_map] at hr
        obtain ⟨q, hq, hrq⟩ := hr
        exact ⟨q, hq, by rw [← hrq], by rw [← hrq]⟩
  · intro req io_res
    exact ⟨rfl, rfl⟩
  · intro req io_res
    exact ⟨rfl, rfl⟩
  · intro req io_res
    exact ⟨rfl, rfl⟩
  · intro req info_res session_res
    unfold handle_delete_request
    by_cases h : info_res.isOk <;> simp [h]
  · intro req io_res
    exact ⟨rfl, rfl⟩
  · intro req tracks
    exact ⟨rfl, rfl⟩

/-- C4 witness: the correlation-echo property applied to a concrete
drained detection request and concrete storage requests with an error
outcome. -/
theorem response_echoes_request_witness :
    ({ id := 1, receiver_addr := 20, data := [] } ∈
      (handle_pending_requests dist_lat c6_state_far).2) ∧
    (∃ q ∈ c6_state_far.pending_requests,
      ({ id := 1, receiver_addr := 20
         data := ([] : List Track) } : Response (List Track)).id = q.id ∧
      ({ id := 1, receiver_addr := 20
         data := ([] : List Track) } : Response (List Track)).receiver_addr =
        q.sender_addr) ∧
    (handle_save_request { id := 30, sender_addr := 40, data := session_w }
      (.error .notFound)).id = 30 := by
  have h := response_echoes_request
  refine ⟨by decide, ?_, ?_⟩
  · exact h.1 dist_lat c6_state_far
      { id := 1, receiver_addr := 20, data := [] } (by decide)
  · exact (h.2.2.1 _ _).1


/-- C5: within the timeout window, wait_for_event returns the first
received event whose discriminant, correlation id and address all match,
skipping non-matching events and lag signals; when the receive sequence
ends (the 20 s timeout fires) without a match it returns the dedicated
timeout error. -/
theorem wait_for_event_first_match (id addr : Nat) (ty : EventKindType)
    (items : List RecvItem) (hnc : RecvItem.closed ∉ items) :
    wait_for_event id addr ty items =
      ((items.filterMap (fun item =>
          match item with
          | .recv e =>
            if eventKindType e.kind = ty ∧ e.id = some id ∧
                e.addr = some addr then
              some e
            else
              none
          | _ => none)).head?.elim (.error .receiveTimeout) .ok) ∧
    wait_for_event_timeout_secs = 20 := by
  refine ⟨?_, rfl⟩
  induction items with
  | nil => rfl
  | cons item rest ih =>
    have hnc' : RecvItem.closed ∉ rest := fun h =>
      hnc (List.mem_cons_of_mem _ h)
    cases item with
    | recv e =>
      by_cases hm : eventKindType e.kind = ty ∧ e.id = some id ∧
          e.addr = some addr
      · simp [wait_for_event, List.filterMap_cons, hm]
      · simp [wait_for_event, List.filterMap_cons, hm, ih hnc']
    | lagged n =>
      simp [wait_for_event, List.filterMap_cons, ih hnc']
    | closed =>
      exact absurd (List.mem_cons_self _ _) hnc

/-- C5 witness: on the concrete receive sequence the wait skips the lag
signal and the two non-matching events and returns the first matching
response. -/
theorem wait_for_event_first_match_witness :
    RecvItem.closed ∉ c5_items ∧
    wait_for_event 5 7 .detectTrackResponseEvent c5_items =
      .ok c5_match_event := by
  have h := wait_for_event_first_match 5 7 .detectTrackResponseEvent c5_items
    (by decide)
  exact ⟨by decide, h.1.trans (by decide)⟩


/-- Round trip of a Position through its serde representation. -/
theorem pos_round (p : Position) : posFromJson (posToJson p) = some p := by
  simp [posFromJson, posToJson, Json.get, List.lookup]

/-- Round trip of a list of Positions. -/
theorem pos_list_round (ps : List Position) :
    optionMapM posFromJson (ps.map posToJson) = some ps := by
  induction ps with
  | nil => rfl
  | cons p ps ih => simp [optionMapM, pos_round, ih]

/-- Round trip of a Track through its serde representation. -/
theorem track_round (t : Track) : trackFromJson (trackToJson t) = some t := by
  cases t with
  | mk name startline finishline sectors =>
    cases finishline <;>
      simp [trackFromJson, trackToJson, Json.get, List.lookup, posToJson,
        posFromJson, pos_list_round]

/-- A valid millisecond-aligned time of day survives the "%H:%M:%S%.3f"
format. -/
theorem time_text_round (t : TimeOfDay) (hv : validTimeOfDay t = true)
    (hms : t.nano % 1000000 = 0) :
    validTimeText (timeOfDayToText t) = true ∧
    timeTextToTimeOfDay (timeOfDayToText t) = t := by
  simp only [validTimeOfDay, Bool.and_eq_true, decide_eq_true_eq] at hv
  constructor
  · simp only [validTimeText, timeOfDayToText, Bool.and_eq_true,
      decide_eq_true_eq]
    omega
  · cases t with
    | mk h m sec n =>
      simp only [timeTextToTimeOfDay, timeOfDayToText, TimeOfDay.mk.injEq,
        true_and]
      simp only [TimeOfDay.mk.injEq] at hms ⊢
      omega

/-- An in-range sector duration serializes to a valid time text whose
parse is the duration truncated to whole seconds. -/
theorem duration_text_round (d : ℤ) (h : validSectorDuration d = true) :
    ∃ t, duration_to_text d = some t ∧ validTimeText t = true ∧
      time_text_to_duration t = truncate_to_seconds d := by
  simp only [validSectorDuration, Bool.and_eq_true, decide_eq_true_eq] at h
  obtain ⟨h0, h1⟩ := h
  have hd : (d.toNat : ℤ) = d := Int.toNat_of_nonneg h0
  have hlt : d.toNat < 86400000000000 := by omega
  refine ⟨{ hour := d.toNat / 1000000000 / 3600
            minute := d.toNat / 1000000000 / 60 % 60
            second := d.toNat / 1000000000 % 60
            millisecond := d.toNat % 1000000000 / 1000000 }, ?_, ?_, ?_⟩
  · simp only [duration_to_text]
    rw [if_neg (by omega), if_pos (by omega)]
  · simp only [validTimeText, Bool.and_eq_true, decide_eq_true_eq]
    omega
  · simp only [time_text_to_duration, truncate_to_seconds]
    omega

/-- Round trip of a valid GNSS fix. -/
theorem gnss_round (p : GnssPosition) (h : validGnss p = true) :
    gnssFromJson (gnssToJson p) = some p := by
  simp only [validGnss, Bool.and_eq_true, decide_eq_true_eq] at h
  obtain ⟨⟨hv, hms⟩, hd⟩ := h
  obtain ⟨hvt, heq⟩ := time_text_round p.time hv hms
  simp [gnssFromJson, gnssToJson, Json.get, List.lookup, hvt, heq, hd]

/-- Round trip of a list of valid GNSS fixes. -/
theorem gnss_list_round (ps : List GnssPosition)
    (h : ps.all validGnss = true) :
    optionMapM gnssFromJson (ps.map gnssToJson) = some ps := by
  induction ps with
  | nil => rfl
  | cons p ps ih =>
    simp only [List.all_cons, Bool.and_eq_true] at h
    simp [optionMapM, gnss_round p h.1, ih h.2]

/-- Serializing in-range sector durations and reading them back yields the
durations truncated to whole seconds. -/
theorem sector_list_round (ds : List ℤ)
    (h : ds.all validSectorDuration = true) :
    ∃ ts, optionMapM duration_to_text ds = some ts ∧
      (ts.map Json.timeStr).filterMap sector_entry =
        ds.map truncate_to_seconds := by
  induction ds with
  | nil => exact ⟨[], rfl, rfl⟩
  | cons d ds ih =>
    simp only [List.all_cons, Bool.and_eq_true] at h
    obtain ⟨t, ht, htv, htd⟩ := duration_text_round d h.1
    obtain ⟨ts, hts, hmap⟩ := ih h.2
    refine ⟨t :: ts, ?_, ?_⟩
    · simp [optionMapM, ht, hts]
    · simp [sector_entry, htv, htd, hmap]

/-- Round trip of a lap with in-range sectors and valid log points: the
lap comes back with its sector durations truncated to whole seconds. -/
theorem lap_round (lap : Lap)
    (hs : lap.sectors.all validSectorDuration = true)
    (hp : lap.log_points.all validGnss = true) :
    (lapToJson lap).bind lapFromJson =
      some { lap with sectors := lap.sectors.map truncate_to_seconds } := by
  obtain ⟨ts, hts, hsec⟩ := sector_list_round lap.sectors hs
  have hlog := gnss_list_round lap.log_points hp
  simp [lapToJson, lapFromJson, extrac_sectors, extrac_log_points, Json.get,
    List.lookup, hts, hsec, hlog]

/-- Round trip of a list of valid laps. -/
theorem lap_list_round (laps : List Lap)
    (h : laps.all (fun lap =>
      lap.sectors.all validSectorDuration &&
      lap.log_points.all validGnss) = true) :
    ∃ js, optionMapM lapToJson laps = some js ∧
      optionMapM lapFromJson js =
        some (laps.map (fun lap =>
          { lap with sectors := lap.sectors.map truncate_to_seconds })) := by
  induction laps with
  | nil => exact ⟨[], rfl, rfl⟩
  | cons lap laps ih =>
    simp only [List.all_cons, Bool.and_eq_true] at h
    have hb := lap_round lap h.1.1 h.1.2
    obtain ⟨js, hjs, hdes⟩ := ih h.2
    cases hj : lapToJson lap with
    | none => rw [hj] at hb; simp at hb
    | some j =>
      rw [hj] at hb
      simp only [Option.some_bind] at hb
      refine ⟨j :: js, ?_, ?_⟩
      · simp [optionMapM, hj, hjs]
      · simp [optionMapM, hb, hdes]

/-- C8 amended: for every representable session (valid date, valid
millisecond-precision time, in-range sector durations, valid log points)
the JSON round trip returns the session with its id replaced by 0 and
every sector duration truncated to whole seconds; it returns the session
unchanged exactly when the id is already 0 and all sector durations are
whole seconds. -/
theorem session_round_trip_normalized (s : Session)
    (h : validSession s = true) :
    session_round_trip s = some (session_normalize s) := by
  simp only [validSession, Bool.and_eq_true, decide_eq_true_eq] at h
  obtain ⟨⟨⟨h1, h2⟩, h3⟩, h4⟩ := h
  obtain ⟨hv, heq⟩ := time_text_round s.time h2 h3
  obtain ⟨js, hjs, hdes⟩ := lap_list_round s.laps h4
  simp [session_round_trip, sessionToJson, sessionFromJson, extrac_track,
    extrac_date, extrac_time, extrac_laps, Json.get, List.lookup, hjs,
    track_round, h1, hv, heq, hdes, session_normalize]

/-- C8 counterexample: the round trip of the concrete session returns the
sector duration truncated to 25 s, so deserialize(serialize(s)) differs
from s for a session whose sector durations carry milliseconds. -/
theorem session_round_trip_drops_milliseconds :
    session_round_trip c8_session =
      some { c8_session with
             laps := [{ sectors := [25000000000], log_points := [] }] } ∧
    session_round_trip c8_session ≠ some c8_session := by
  decide

/-- C8 witness: the amended round-trip law applied to the concrete
session. -/
theorem session_round_trip_normalized_witness :
    validSession c8_session = true ∧
    session_round_trip c8_session = some (session_normalize c8_session) :=
  ⟨by decide, session_round_trip_normalized c8_session (by decide)⟩

end Rapid
